import Mathlib

/-!
Verification development for the notebook `lesson_4_VGG.ipynb` of the
repository `tonyreina/keras_tutorials`.  The notebook is a linear Keras
script that builds, trains, evaluates and saves a VGG-style classifier on
CIFAR-10.  We shallowly embed the authored parts of the script — the
hyperparameter constants, the declared layer topology, the normalization
and one-hot preprocessing, the compile / fit / evaluate configuration,
the step order of the script, and the argmax-based visualization — and
prove the frozen claims about them.  Pixel and weight values are modelled
as rationals; NumPy's elementwise division is modelled with an explicit
error branch (`Option`) for a zero divisor.
-/

/-- Activations used in the notebook's layers. -/
inductive Activation
  | relu
  | softmax
deriving DecidableEq, Repr

/-- Padding modes of Keras `Conv2D`. -/
inductive Padding
  | same
  | valid
deriving DecidableEq, Repr

/-- One layer of the declared topology, with exactly the authored
configuration fields (filter count, kernel size, activation, padding,
pool size, units, dropout rate). -/
inductive Layer
  | input (shape : Nat × Nat × Nat)
  | conv2D (filters : Nat) (kernel_size : Nat × Nat) (act : Activation) (pad : Padding)
  | maxPooling2D (pool_size : Nat × Nat)
  | flatten
  | dense (units : Nat) (act : Activation)
  | dropout (rate : ℚ)
deriving DecidableEq, Repr

/-- The constant `batch_size  = 128` from the hyperparameter cell. -/
def batch_size : Nat := 128

/-- The constant `num_classes = 10` from the hyperparameter cell. -/
def num_classes : Nat := 10

/-- The constant `epochs      = 14` from the hyperparameter cell. -/
def epochs : Nat := 14

/-- The tuple `input_shape = (img_rows, img_cols, n_channels) = (32, 32, 3)`. -/
def input_shape : Nat × Nat × Nat := (32, 32, 3)

/-- The model topology exactly as authored in the notebook cell that
builds `model`: the `Input` layer followed by the functional chain
`conv1 … conv10, layer11 … layer15`, in source order. -/
def model_layers : List Layer :=
  [ Layer.input input_shape
  , Layer.conv2D 64 (3, 3) Activation.relu Padding.same
  , Layer.conv2D 64 (3, 3) Activation.relu Padding.same
  , Layer.maxPooling2D (2, 2)
  , Layer.conv2D 96 (3, 3) Activation.relu Padding.same
  , Layer.conv2D 96 (3, 3) Activation.relu Padding.same
  , Layer.maxPooling2D (2, 2)
  , Layer.conv2D 192 (3, 3) Activation.relu Padding.same
  , Layer.conv2D 192 (3, 3) Activation.relu Padding.same
  , Layer.conv2D 192 (1, 1) Activation.relu Padding.same
  , Layer.maxPooling2D (2, 2)
  , Layer.conv2D 224 (3, 3) Activation.relu Padding.same
  , Layer.conv2D 224 (3, 3) Activation.relu Padding.same
  , Layer.conv2D 224 (1, 1) Activation.relu Padding.same
  , Layer.flatten
  , Layer.dense 1024 Activation.relu
  , Layer.dropout (1/2)
  , Layer.dense 1024 Activation.relu
  , Layer.dense num_classes Activation.softmax
  ]

/-- The layer sequence as the specification claim words it: on a
(32,32,3) input, two 64-filter 3x3 same relu convolutions, a 2x2
max-pool, two 96-filter 3x3 same relu convolutions, a 2x2 max-pool, two
192-filter 3x3 and one 192-filter 1x1 same relu convolutions, a 2x2
max-pool, two 224-filter 3x3 and one 224-filter 1x1 same relu
convolutions, then Flatten, Dense(1024, relu), Dropout(0.5),
Dense(1024, relu), and a final Dense layer of 10 softmax units.
This definition follows the claim's wording, to be compared with
`model_layers`, which follows the source. -/
def claimed_layers : List Layer :=
  [ Layer.input (32, 32, 3)
  , Layer.conv2D 64 (3, 3) Activation.relu Padding.same
  , Layer.conv2D 64 (3, 3) Activation.relu Padding.same
  , Layer.maxPooling2D (2, 2)
  , Layer.conv2D 96 (3, 3) Activation.relu Padding.same
  , Layer.conv2D 96 (3, 3) Activation.relu Padding.same
  , Layer.maxPooling2D (2, 2)
  , Layer.conv2D 192 (3, 3) Activation.relu Padding.same
  , Layer.conv2D 192 (3, 3) Activation.relu Padding.same
  , Layer.conv2D 192 (1, 1) Activation.relu Padding.same
  , Layer.maxPooling2D (2, 2)
  , Layer.conv2D 224 (3, 3) Activation.relu Padding.same
  , Layer.conv2D 224 (3, 3) Activation.relu Padding.same
  , Layer.conv2D 224 (1, 1) Activation.relu Padding.same
  , Layer.flatten
  , Layer.dense 1024 Activation.relu
  , Layer.dropout (1/2)
  , Layer.dense 1024 Activation.relu
  , Layer.dense 10 Activation.softmax
  ]

/-- Semantic steps of the notebook's code cells, in the vocabulary of
both the script and the specification.  Constructors cover every code
cell that performs an action (imports are omitted as inert). -/
inductive Step
  | setHyperparams
  | setInputShape
  | loadData
  | normalize
  | printShapes
  | oneHotEncode
  | declareLayers
  | defineTBCallback
  | compile
  | summary
  | defineAugmenter
  | launchTensorboard
  | fit
  | evaluate
  | plotLoss
  | defineLabels
  | predictAll
  | visualize
  | save
deriving DecidableEq, Repr

/-- The notebook's code cells as steps, in cell order: hyperparameters,
input shape, `cifar10.load_data`, the two normalizing divisions, the
shape prints, `to_categorical` on both label arrays, the model
declaration, the TensorBoard callback, `model.compile`,
`model.summary`, the `ImageDataGenerator`, the tensorboard magic,
`model.fit`, `model.evaluate`, the loss-curve plot, the class-name
list, `model.predict` over the test set, the sample-prediction figure,
and `model.save`. -/
def notebook_steps : List Step :=
  [ Step.setHyperparams
  , Step.setInputShape
  , Step.loadData
  , Step.normalize
  , Step.printShapes
  , Step.oneHotEncode
  , Step.declareLayers
  , Step.defineTBCallback
  , Step.compile
  , Step.summary
  , Step.defineAugmenter
  , Step.launchTensorboard
  , Step.fit
  , Step.evaluate
  , Step.plotLoss
  , Step.defineLabels
  , Step.predictAll
  , Step.visualize
  , Step.save
  ]

/-- The nine steps the specification's linear order names, in the
spec's order: load data, normalize, one-hot-encode labels, declare the
layer sequence, compile, fit, evaluate, visualize predictions, persist
the model. -/
def spec_order : List Step :=
  [ Step.loadData
  , Step.normalize
  , Step.oneHotEncode
  , Step.declareLayers
  , Step.compile
  , Step.fit
  , Step.evaluate
  , Step.visualize
  , Step.save
  ]

/-- C1: the declared model is exactly the fixed layer sequence the
specification describes, in that order and with no other layers. -/
theorem model_is_claimed_topology : model_layers = claimed_layers := rfl

/-- C2: the nine spec-named steps occur in the notebook exactly in the
spec's linear order (restricting the cell sequence to those steps
yields the spec's list); in particular fitting precedes evaluation,
evaluation precedes saving, and saving is the final step. -/
theorem script_steps_in_spec_order :
    notebook_steps.filter (fun s => decide (s ∈ spec_order)) = spec_order ∧
    notebook_steps.indexOf Step.fit < notebook_steps.indexOf Step.evaluate ∧
    notebook_steps.indexOf Step.evaluate < notebook_steps.indexOf Step.save ∧
    notebook_steps.getLast? = some Step.save := by
  decide

/-- Loss functions referenced by the notebook. -/
inductive Loss
  | categoricalCrossentropy
deriving DecidableEq, Repr

/-- Optimizers referenced by the notebook; Adam carries its authored
learning rate. -/
inductive Optimizer
  | adam (learning_rate : ℚ)
deriving DecidableEq, Repr

/-- The metrics named in the `model.compile` call. -/
inductive MetricName
  | accuracy
  | auc
  | precision
  | recall
deriving DecidableEq, Repr

/-- Configuration handed to `model.compile`. -/
structure CompileConfig where
  loss : Loss
  optimizer : Optimizer
  metrics : List MetricName
deriving DecidableEq, Repr

/-- The notebook's compile call:
`loss=categorical_crossentropy, optimizer=Adam(learning_rate=1e-5),
metrics=['accuracy', AUC(), Precision(), Recall()]`. -/
def compile_config : CompileConfig :=
  { loss := Loss.categoricalCrossentropy
  , optimizer := Optimizer.adam (1 / 100000)
  , metrics := [MetricName.accuracy, MetricName.auc, MetricName.precision, MetricName.recall]
  }

/-- Symbolic names for the arrays the script binds; the fit and
evaluate calls are modelled as referring to these names, so which
array (raw or normalized) is fed where is part of the embedding. -/
inductive ArrayRef
  | xTrain
  | xTest
  | xTrainNorm
  | xTestNorm
  | yTrain
  | yTest
deriving DecidableEq, Repr

/-- Callbacks defined by the notebook. -/
inductive CallbackRef
  | tbLog
deriving DecidableEq, Repr

/-- Configuration of the `ImageDataGenerator` augmenter. -/
structure DatagenConfig where
  rotation_range : Nat
  width_shift_range : ℚ
  height_shift_range : ℚ
  horizontal_flip : Bool
deriving DecidableEq, Repr

/-- The notebook's augmenter:
`ImageDataGenerator(rotation_range=20, width_shift_range=0.2,
height_shift_range=0.2, horizontal_flip=True)`. -/
def datagen : DatagenConfig :=
  { rotation_range := 20
  , width_shift_range := 2 / 10
  , height_shift_range := 2 / 10
  , horizontal_flip := true
  }

/-- Arguments of the `model.fit` call: the augmented flow's source
arrays and batch size, the epoch count, the validation pair and the
callback list. -/
structure FitArgs where
  augmenter : DatagenConfig
  flow_images : ArrayRef
  flow_labels : ArrayRef
  flow_batch_size : Nat
  fit_epochs : Nat
  validation_data : ArrayRef × ArrayRef
  callbacks : List CallbackRef
deriving DecidableEq, Repr

/-- The notebook's fit call:
`model.fit(datagen.flow(x_train_norm, y_train, batch_size=batch_size),
epochs=epochs, validation_data=(x_test_norm, y_test),
callbacks=[tb_log])`. -/
def fit_call : FitArgs :=
  { augmenter := datagen
  , flow_images := ArrayRef.xTrainNorm
  , flow_labels := ArrayRef.yTrain
  , flow_batch_size := batch_size
  , fit_epochs := epochs
  , validation_data := (ArrayRef.xTestNorm, ArrayRef.yTest)
  , callbacks := [CallbackRef.tbLog]
  }

/-- Arguments of the `model.evaluate` call:
`model.evaluate(x_test_norm, y_test, verbose=1)`. -/
def evaluate_args : ArrayRef × ArrayRef := (ArrayRef.xTestNorm, ArrayRef.yTest)

/-- One position of the score list `model.evaluate` returns: the loss
first, then one entry per compiled metric, in compile order. -/
inductive ScoreEntry
  | lossValue
  | metric (m : MetricName)
deriving DecidableEq, Repr

/-- The meaning of each position of `score`: Keras's `evaluate` returns
the loss followed by the metric results in the order the metrics were
given to `compile`. -/
def score_labels : List ScoreEntry :=
  ScoreEntry.lossValue :: compile_config.metrics.map ScoreEntry.metric

/-- How the notebook's print statements label `score[0] .. score[4]`:
test loss, accuracy, AUC, precision, recall. -/
def printed_score_labels : List ScoreEntry :=
  [ ScoreEntry.lossValue
  , ScoreEntry.metric MetricName.accuracy
  , ScoreEntry.metric MetricName.auc
  , ScoreEntry.metric MetricName.precision
  , ScoreEntry.metric MetricName.recall
  ]

/-- C5: the authored hyperparameters are the constants batch size 128,
epoch count 14 and learning rate 1e-5, and the model is compiled with
exactly categorical crossentropy, Adam at that learning rate, and the
metrics accuracy, AUC, precision, recall. -/
theorem hyperparameters_fixed :
    batch_size = 128 ∧ epochs = 14 ∧
    compile_config.loss = Loss.categoricalCrossentropy ∧
    compile_config.optimizer = Optimizer.adam (1 / 100000) ∧
    compile_config.metrics =
      [MetricName.accuracy, MetricName.auc, MetricName.precision, MetricName.recall] :=
  ⟨rfl, rfl, rfl, rfl, rfl⟩

/-- C6: training draws its batches from the augmenting iterator built
over the normalized training images and the one-hot labels, with
rotation range 20, shift ranges 0.2, horizontal flips and batch size
128, runs for 14 epochs, validates on the normalized test set, passes
the TensorBoard callback, and never feeds the raw image arrays. -/
theorem fit_uses_augmented_normalized_data :
    fit_call.flow_images = ArrayRef.xTrainNorm ∧
    fit_call.flow_labels = ArrayRef.yTrain ∧
    fit_call.augmenter =
      { rotation_range := 20, width_shift_range := 2 / 10
      , height_shift_range := 2 / 10, horizontal_flip := true } ∧
    fit_call.flow_batch_size = 128 ∧
    fit_call.fit_epochs = 14 ∧
    fit_call.validation_data = (ArrayRef.xTestNorm, ArrayRef.yTest) ∧
    fit_call.callbacks = [CallbackRef.tbLog] ∧
    fit_call.flow_images ≠ ArrayRef.xTrain ∧
    fit_call.validation_data.1 ≠ ArrayRef.xTest :=
  ⟨rfl, rfl, rfl, rfl, rfl, rfl, rfl, by decide, by decide⟩

/-- C7: the evaluate call runs on the normalized test images and
one-hot test labels and yields exactly five score positions whose
meanings, fixed by the compile-time metric order, are loss, accuracy,
AUC, precision, recall — matching the notebook's prints. -/
theorem evaluate_score_positions :
    evaluate_args = (ArrayRef.xTestNorm, ArrayRef.yTest) ∧
    score_labels.length = 5 ∧
    score_labels = printed_score_labels :=
  ⟨rfl, rfl, rfl⟩

/-- Shape of the data flowing between layers: a spatial feature map
(height, width, channels) before `Flatten`, a flat feature vector
after it. -/
inductive Shape
  | grid (h w c : Nat)
  | flat (n : Nat)
deriving DecidableEq, Repr

/-- How one layer transforms the shape and how many weights it owns,
per Keras semantics for the layer kinds the notebook uses: an `Input`
layer sets the shape and owns nothing; a `same`-padded convolution
keeps the spatial extent, sets the channel count to its filter count
and owns `(kh*kw*c_in + 1) * filters` weights (kernel plus one bias
per filter); a max-pool divides the spatial extent by its pool size
and owns nothing; `Flatten` multiplies the dimensions out; `Dense n`
owns `(features + 1) * n` weights; `Dropout` is weightless and shape
preserving.  Combinations that cannot arise in a well-formed model
(for example a convolution applied to flattened data) leave the shape
unchanged with no weights. -/
def layerStep : Shape → Layer → Shape × Nat
  | _, Layer.input (h, w, c) => (Shape.grid h w c, 0)
  | Shape.grid h w c, Layer.conv2D f (kh, kw) _ Padding.same =>
      (Shape.grid h w f, (kh * kw * c + 1) * f)
  | Shape.grid h w c, Layer.maxPooling2D (ph, pw) =>
      (Shape.grid (h / ph) (w / pw) c, 0)
  | Shape.grid h w c, Layer.flatten => (Shape.flat (h * w * c), 0)
  | Shape.flat n, Layer.dense u _ => (Shape.flat u, (n + 1) * u)
  | Shape.flat n, Layer.dropout _ => (Shape.flat n, 0)
  | s, _ => (s, 0)

/-- Propagate the shape through a layer list, accumulating the weight
count. -/
def runLayers : Shape → List Layer → Shape × Nat
  | s, [] => (s, 0)
  | s, l :: ls =>
      let (s2, p) := layerStep s l
      let (s3, q) := runLayers s2 ls
      (s3, p + q)

/-- Total trainable parameter count of a layer list (all weights of
these layer kinds are trainable). -/
def trainableParams (ls : List Layer) : Nat :=
  (runLayers (Shape.flat 0) ls).snd

/-- Non-trainable parameter count: none of the notebook's layer kinds
(`Input`, `Conv2D`, `MaxPooling2D`, `Flatten`, `Dense`, `Dropout`)
owns frozen weights in Keras, so each contributes zero. -/
def nonTrainableParams (ls : List Layer) : Nat :=
  (ls.map (fun _ => 0)).sum

/-- The shape reaching the layer at the given position (the shape
after the first `i` layers). -/
def shapeAt (ls : List Layer) (i : Nat) : Shape :=
  (runLayers (Shape.flat 0) (ls.take i)).fst

/-- C8: propagating (32,32,3) through the declared topology, the three
2x2 poolings shrink the grid to 4x4 so `Flatten` sees 4*4*224 = 3584
features, and the convolution and dense weight counts sum to exactly
6,332,650 trainable parameters with zero non-trainable parameters. -/
theorem model_parameter_count :
    shapeAt model_layers 14 = Shape.grid 4 4 224 ∧
    shapeAt model_layers 15 = Shape.flat 3584 ∧
    trainableParams model_layers = 6332650 ∧
    nonTrainableParams model_layers = 0 := by
  refine ⟨?_, ?_, ?_, ?_⟩ <;> rfl

/-- NumPy's `arr.max()` over the flattened pixel values: the greatest
element, computed by folding binary `max` over the list (0 on an empty
array, a case NumPy raises on; it only occurs below under hypotheses
that exclude it or make it harmless). -/
def np_max : List ℚ → ℚ
  | [] => 0
  | x :: xs => xs.foldl max x

/-- Elementwise division of an array by the scalar `m`, as in
`x_train / x_train.max()`, with an explicit error branch when the
divisor is zero. -/
def normalizeBy (m : ℚ) (xs : List ℚ) : Option (List ℚ) :=
  if m = 0 then none else some (xs.map (fun x => x / m))

/-- The assignment `x_train_norm = x_train / x_train.max()`. -/
def x_train_norm (x_train : List ℚ) : Option (List ℚ) :=
  normalizeBy (np_max x_train) x_train

/-- The assignment `x_test_norm  = x_test  / x_train.max()` — the divisor comes from
the training set. -/
def x_test_norm (x_train x_test : List ℚ) : Option (List ℚ) :=
  normalizeBy (np_max x_train) x_test

/-- The encoder `keras.utils.to_categorical`: the length-`n` one-hot vector of the
class label, with a 1 at the label's index and 0 elsewhere. -/
def to_categorical (label : Nat) (n : Nat) : List ℚ :=
  (List.range n).map (fun i => if i = label then 1 else 0)

/-- The one-hot re-encoding applied to a whole label array, as in
`y_train = keras.utils.to_categorical(y_train, num_classes)`. -/
def encode_labels (ys : List Nat) : List (List ℚ) :=
  ys.map (fun y => to_categorical y num_classes)

/-- NumPy's `argmax`: the index of the first occurrence of the maximum
value (0 on an empty array). -/
def np_argmax (xs : List ℚ) : Nat :=
  xs.findIdx (fun x => decide (x = np_max xs))

/-- The class-name list of the visualization cell. -/
def labels : List String :=
  [ "airplane", "automobile", "bird", "cat", "deer"
  , "dog", "frog", "horse", "ship", "truck" ]

theorem foldl_max_mem (xs : List ℚ) (x : ℚ) : xs.foldl max x ∈ x :: xs := by
  induction xs generalizing x with
  | nil => simp
  | cons y ys ih =>
    rcases List.mem_cons.mp (ih (max x y)) with h1 | h1
    · rw [List.foldl_cons, h1]
      rcases max_choice x y with h2 | h2 <;> simp [h2]
    · simp only [List.foldl_cons]
      exact List.mem_cons_of_mem _ (List.mem_cons_of_mem _ h1)

theorem le_foldl_max (xs : List ℚ) (x : ℚ) : x ≤ xs.foldl max x := by
  induction xs generalizing x with
  | nil => simp
  | cons y ys ih => exact le_trans (le_max_left x y) (ih (max x y))

theorem mem_le_foldl_max (xs : List ℚ) (x p : ℚ) (hp : p ∈ xs) :
    p ≤ xs.foldl max x := by
  induction xs generalizing x with
  | nil => cases hp
  | cons y ys ih =>
    rcases List.mem_cons.mp hp with h | h
    · subst h
      exact le_trans (le_max_right x p) (le_foldl_max ys (max x p))
    · exact ih (max x y) h

theorem np_max_mem (xs : List ℚ) (h : xs ≠ []) : np_max xs ∈ xs := by
  cases xs with
  | nil => exact absurd rfl h
  | cons x ys => exact foldl_max_mem ys x

theorem le_np_max (xs : List ℚ) (p : ℚ) (hp : p ∈ xs) : p ≤ np_max xs := by
  cases xs with
  | nil => cases hp
  | cons x ys =>
    rcases List.mem_cons.mp hp with h | h
    · subst h; exact le_foldl_max ys p
    · exact mem_le_foldl_max ys x p h

theorem normalizeBy_mem_unit (m : ℚ) (hm : 0 < m) (xs : List ℚ)
    (hnn : ∀ p ∈ xs, 0 ≤ p) (hub : ∀ p ∈ xs, p ≤ m)
    (ws : List ℚ) (h : normalizeBy m xs = some ws) :
    ∀ w ∈ ws, 0 ≤ w ∧ w ≤ 1 := by
  have hm' : m ≠ 0 := ne_of_gt hm
  have hws : xs.map (fun x => x / m) = ws := by
    simpa [normalizeBy, hm'] using h
  subst hws
  intro w hw
  rcases List.mem_map.mp hw with ⟨p, hp, rfl⟩
  exact ⟨div_nonneg (hnn p hp) hm.le, (div_le_one hm).mpr (hub p hp)⟩

theorem np_max_pos_of_norm_some (xtr : List ℚ) (htr : ∀ p ∈ xtr, 0 ≤ p)
    (zs : List ℚ) (hz : x_train_norm xtr = some zs) : 0 < np_max xtr := by
  have hm' : np_max xtr ≠ 0 := by
    intro h0
    simp [x_train_norm, normalizeBy, h0] at hz
  have hne : xtr ≠ [] := by
    intro h0
    subst h0
    exact hm' rfl
  exact lt_of_le_of_ne (htr _ (np_max_mem xtr hne)) (Ne.symm hm')

/-- C3 as stated is false: the test images are divided by the
training maximum, so a non-negative test pixel larger than every
training pixel normalizes outside [0,1].  Concretely, with training
pixels [1] and test pixels [2] (both non-negative), x_test_norm is
[2] and 2 does not lie in [0,1]. -/
theorem normalize_range_counterexample :
    (∀ p ∈ [(1 : ℚ)], 0 ≤ p) ∧ (∀ p ∈ [(2 : ℚ)], 0 ≤ p) ∧
    x_test_norm [(1 : ℚ)] [(2 : ℚ)] = some [(2 : ℚ)] ∧
    ¬ (∀ ws, x_test_norm [(1 : ℚ)] [(2 : ℚ)] = some ws →
        ∀ w ∈ ws, 0 ≤ w ∧ w ≤ 1) := by
  have hsome : x_test_norm [(1 : ℚ)] [(2 : ℚ)] = some [(2 : ℚ)] := by
    norm_num [x_test_norm, normalizeBy, np_max]
  refine ⟨by norm_num, by norm_num, hsome, fun h => ?_⟩
  have h2 := (h [(2 : ℚ)] hsome 2 (by norm_num)).2
  norm_num at h2

/-- C3 amended: dividing by the training maximum keeps every
normalized training pixel in [0,1] whenever the arrays are
non-negative and the division succeeds, and every normalized test
pixel stays in [0,1] under the additional (forced) hypothesis that no
test pixel exceeds the training maximum. -/
theorem normalize_range_amended (xtr xte : List ℚ)
    (htr : ∀ p ∈ xtr, 0 ≤ p) (hte : ∀ p ∈ xte, 0 ≤ p)
    (hbound : ∀ p ∈ xte, p ≤ np_max xtr)
    (zs ws : List ℚ)
    (hz : x_train_norm xtr = some zs)
    (hw : x_test_norm xtr xte = some ws) :
    (∀ z ∈ zs, 0 ≤ z ∧ z ≤ 1) ∧ (∀ w ∈ ws, 0 ≤ w ∧ w ≤ 1) := by
  have hpos : 0 < np_max xtr := np_max_pos_of_norm_some xtr htr zs hz
  exact ⟨normalizeBy_mem_unit _ hpos xtr htr (fun p hp => le_np_max xtr p hp) zs hz,
         normalizeBy_mem_unit _ hpos xte hte hbound ws hw⟩

/-- Witness for the amended C3: training pixels [2,1] and test pixels
[1] normalize to [1, 1/2] and [1/2], all inside [0,1]. -/
theorem normalize_range_amended_witness :
    (∀ z ∈ [(1 : ℚ), 1/2], 0 ≤ z ∧ z ≤ 1) ∧
    (∀ w ∈ [(1 : ℚ)/2], 0 ≤ w ∧ w ≤ 1) :=
  normalize_range_amended [2, 1] [1]
    (by norm_num) (by norm_num)
    (by norm_num [np_max])
    [1, 1/2] [1/2]
    (by norm_num [x_train_norm, normalizeBy, np_max])
    (by norm_num [x_test_norm, normalizeBy, np_max])

/-- C10: both normalizing divisions — `x_train / x_train.max()` and
`x_test / x_train.max()` — are unguarded and share the training
maximum as divisor: over a non-negative training array, if every
training pixel is 0 the divisor is 0 and the error branch of both
divisions is reached (whatever the test array holds), while the
presence of any strictly positive training pixel makes both divisions
well defined. -/
theorem normalize_division_guard (xtr xte : List ℚ) (hnn : ∀ p ∈ xtr, 0 ≤ p) :
    ((∀ p ∈ xtr, p = 0) →
        np_max xtr = 0 ∧ x_train_norm xtr = none ∧ x_test_norm xtr xte = none) ∧
    ((∃ p ∈ xtr, 0 < p) →
        (∃ zs, x_train_norm xtr = some zs) ∧ (∃ ws, x_test_norm xtr xte = some ws)) := by
  constructor
  · intro hall
    have hmax : np_max xtr = 0 := by
      by_cases hne : xtr = []
      · subst hne; rfl
      · exact hall _ (np_max_mem xtr hne)
    exact ⟨hmax, by simp [x_train_norm, normalizeBy, hmax],
           by simp [x_test_norm, normalizeBy, hmax]⟩
  · rintro ⟨p, hp, hppos⟩
    have hpos : 0 < np_max xtr := lt_of_lt_of_le hppos (le_np_max xtr p hp)
    exact ⟨⟨xtr.map (fun x => x / np_max xtr),
            by simp [x_train_norm, normalizeBy, ne_of_gt hpos]⟩,
           ⟨xte.map (fun x => x / np_max xtr),
            by simp [x_test_norm, normalizeBy, ne_of_gt hpos]⟩⟩

/-- Witness for C10: on the all-zero training array [0,0] the divisor
is 0 and both the training and the test normalization hit the error
branch (test array [5]); on the training array [0,1] both succeed. -/
theorem normalize_division_guard_witness :
    (np_max [(0 : ℚ), 0] = 0 ∧ x_train_norm [(0 : ℚ), 0] = none ∧
      x_test_norm [(0 : ℚ), 0] [(5 : ℚ)] = none) ∧
    ((∃ zs, x_train_norm [(0 : ℚ), 1] = some zs) ∧
      (∃ ws, x_test_norm [(0 : ℚ), 1] [(5 : ℚ)] = some ws)) :=
  ⟨(normalize_division_guard [0, 0] [5] (by norm_num)).1 (by norm_num),
   (normalize_division_guard [0, 1] [5] (by norm_num)).2 ⟨1, by norm_num, by norm_num⟩⟩

/-- C4: for a class label below 10, `to_categorical` produces the
length-10 vector with 1 at the label's index and 0 at the other nine
indices, and re-encoding a whole label array yields one such row per
sample (a samples-by-10 matrix). -/
theorem one_hot_encoding (c : Nat) (h : c < 10) :
    (to_categorical c num_classes).length = 10 ∧
    (to_categorical c num_classes)[c]? = some 1 ∧
    (∀ i, i < 10 → i ≠ c → (to_categorical c num_classes)[i]? = some 0) ∧
    (∀ ys : List Nat, (encode_labels ys).length = ys.length ∧
      ∀ row ∈ encode_labels ys, row.length = 10) := by
  have key : ∀ c' < 10, (to_categorical c' num_classes)[c']? = some 1 ∧
      ∀ i < 10, i ≠ c' → (to_categorical c' num_classes)[i]? = some 0 := by decide
  refine ⟨by simp [to_categorical, num_classes], (key c h).1,
          fun i hi hic => (key c h).2 i hi hic, fun ys => ⟨by simp [encode_labels], ?_⟩⟩
  intro row hrow
  rcases List.mem_map.mp hrow with ⟨y, _, rfl⟩
  simp [to_categorical, num_classes]

/-- Witness for C4 at label 3. -/
theorem one_hot_encoding_witness :
    (to_categorical 3 num_classes).length = 10 ∧
    (to_categorical 3 num_classes)[3]? = some 1 :=
  ⟨(one_hot_encoding 3 (by decide)).1, (one_hot_encoding 3 (by decide)).2.1⟩

/-- C9: argmax inverts the one-hot encoding on labels 0..9, so the
visualization's `y_test[n].argmax()` recovers the original label and
is a valid index into the 10-name class list; likewise the argmax of
any length-10 prediction vector indexes the class list in range. -/
theorem argmax_one_hot (c : Nat) (h : c < 10) :
    np_argmax (to_categorical c num_classes) = c ∧
    np_argmax (to_categorical c num_classes) < labels.length ∧
    (∀ preds : List ℚ, preds.length = 10 → np_argmax preds < labels.length) := by
  have key : ∀ c' < 10, np_argmax (to_categorical c' num_classes) = c' := by decide
  have hlab : labels.length = 10 := by decide
  refine ⟨key c h, by rw [key c h, hlab]; exact h, fun preds hlen => ?_⟩
  have hne : preds ≠ [] := by
    intro h0; rw [h0] at hlen; exact absurd hlen (by decide)
  have hex : ∃ x ∈ preds, (fun x => decide (x = np_max preds)) x := by
    exact ⟨np_max preds, np_max_mem preds hne, by simp⟩
  have := List.findIdx_lt_length_of_exists hex
  rw [hlab]
  rw [hlen] at this
  exact this

/-- Witness for C9 at label 7. -/
theorem argmax_one_hot_witness :
    np_argmax (to_categorical 7 num_classes) = 7 :=
  (argmax_one_hot 7 (by decide)).1
